import Mathlib

/-!
Shallow embedding of the cotacoes-frete back-end (Express/Supabase/Mongo
variants) and verification of its specification claims.

Sources embedded:
- src/middleware/auth.js        : JWT + static-token bearer verifier
- src/unnamed/part_003          : static-token-only verifier variant
- src/cache.js                  : Upstash Redis cache helpers
- src/server.js                 : bootstrap-token auth middleware, token
                                  sweep, and the Supabase CRUD handlers
- src/unnamed/part_001 (first)  : MongoDB CRUD handler variants
-/

namespace CotacoesFrete

/-! ## Bearer-token verifier (src/middleware/auth.js) -/

/-- Identity attached to `req.user` by the verifier. -/
structure UserIdent where
  username : String
  name : String
  isAdmin : Bool
deriving DecidableEq, Repr

/-- Payload of a successfully verified signed token (`jwt.verify` result). -/
structure JwtPayload where
  username : String
  name : String
  isAdmin : Bool
deriving DecidableEq, Repr

/-- Outcome of the verifier middleware: either `next()` was called with
`req.user` set, or a JSON error response was sent. -/
inductive AuthResult where
  | allowed (user : UserIdent)
  | rejected (status : Nat) (error : String)
deriving DecidableEq, Repr

/-- Authentication outcome as observed by the claims: the accept/reject
decision together with the attached identity, ignoring message text. -/
inductive AuthOutcome where
  | allowed (user : UserIdent)
  | rejected (status : Nat)
deriving DecidableEq, Repr

def AuthResult.outcome : AuthResult → AuthOutcome
  | .allowed u => .allowed u
  | .rejected s _ => .rejected s

/-- `authHeader.startsWith('Bearer ') ? authHeader.slice(7) : authHeader`
(src/middleware/auth.js lines 22-24), modelled on the character list. -/
def extractBearer (h : String) : String :=
  if ("Bearer ".data).isPrefixOf h.data then ⟨h.data.drop 7⟩ else h

/-- The try/catch block of `verificarAutenticacao` (src/middleware/auth.js
lines 33-60): `jwt.verify` success attaches the embedded identity; on a
throw, exact equality with `process.env.API_TOKEN` attaches the synthetic
machine identity, otherwise 403. -/
def checkToken (jwtVerify : String → Option JwtPayload)
    (apiToken : Option String) (token : String) : AuthResult :=
  match jwtVerify token with
  | some decoded =>
      .allowed { username := decoded.username, name := decoded.name,
                 isAdmin := decoded.isAdmin }
  | none =>
      if some token = apiToken then
        .allowed { username := "api", name := "API User", isAdmin := true }
      else
        .rejected 403 "Token inválido ou expirado"

/-- `verificarAutenticacao` from src/middleware/auth.js. `jwtVerify`
abstracts `jwt.verify(token, SECRET_KEY)`: `some payload` on success,
`none` when verification throws. `apiToken` is `process.env.API_TOKEN`
(`none` = unset). `authHeader` is `req.headers.authorization`, where
`none` or the empty string are both falsy in the source. -/
def verificarAutenticacao (jwtVerify : String → Option JwtPayload)
    (apiToken : Option String) (authHeader : Option String) : AuthResult :=
  match authHeader with
  | none => .rejected 401 "Token não fornecido"
  | some h =>
    if h = "" then .rejected 401 "Token não fornecido"
    else if extractBearer h = "" then .rejected 401 "Token não fornecido"
    else checkToken jwtVerify apiToken (extractBearer h)

/-! ## Static-token verifier variant (src/unnamed/part_003) -/

/-- Outcome of the part_003 middleware. -/
inductive Auth3Result where
  | next
  | unauthorized (msg : String)
  | configError
deriving DecidableEq, Repr

def Auth3Result.outcome : Auth3Result → AuthOutcome
  | .next => .allowed { username := "", name := "", isAdmin := false }
  | .unauthorized _ => .rejected 401
  | .configError => .rejected 500

/-- Remove the first occurrence of `pat` from `l`
(JS `String.prototype.replace` with a string pattern). -/
def removeFirstSub (pat : List Char) : List Char → List Char
  | [] => []
  | c :: cs => if pat.isPrefixOf (c :: cs) then (c :: cs).drop pat.length
               else c :: removeFirstSub pat cs

/-- `authHeader.replace('Bearer ', '')` from src/unnamed/part_003 line 23. -/
def replaceBearer (h : String) : String :=
  ⟨removeFirstSub ("Bearer ".data) h.data⟩

/-- `verificarAutenticacao` from src/unnamed/part_003. -/
def verificarAutenticacao3 (apiToken : Option String) (path method : String)
    (authHeader : Option String) : Auth3Result :=
  if path == "/health" || method == "HEAD" then .next
  else
    match authHeader with
    | none => .unauthorized "Token de autenticação não fornecido"
    | some h =>
      if h = "" then .unauthorized "Token de autenticação não fornecido"
      else
        match apiToken with
        | none => .configError
        | some secret =>
            if replaceBearer h = secret then .next
            else .unauthorized "Token inválido"

/-! ## Cache layer (src/cache.js) -/

/-- Abstract Upstash `redis.get`: `.ok v` is a successful lookup (with `v =
none` for a missing or expired key), `.error` is a thrown backend error. -/
abbrev RedisGet := String → Except String (Option String)

/-- `getCache` from src/cache.js lines 20-30: `null` when the client is not
configured, the backend value on success, and `null` (after a logged
warning) when the backend call throws. The result is `Except` so that
"never raises" is expressible: an uncaught throw would be `.error`. -/
def getCache (redis : Option RedisGet) (key : String) : Except String (Option String) :=
  match redis with
  | none => .ok none
  | some g =>
    match g key with
    | .ok v => .ok v
    | .error _ => .ok none

/-- Abstract Redis state for `del`: the set of live keys plus whether the
`del` call throws. -/
structure RedisDelBackend where
  keys : List String
  delFails : Bool
deriving DecidableEq, Repr

/-- `clearCache` from src/cache.js lines 45-58: the `pattern` argument is
ignored (the code comments that Upstash REST supports no KEYS/SCAN) and
only the key `cotacoes:all` is deleted; returns `false` when the client is
unconfigured or `del` throws, `true` otherwise. -/
def clearCache (redis : Option RedisDelBackend) (pattern : Option String) :
    Bool × Option RedisDelBackend :=
  match redis with
  | none => (false, none)
  | some b =>
    if b.delFails then (false, some b)
    else (true, some { b with keys := b.keys.filter (fun k => k != "cotacoes:all") })

/-! ## Quote records and CRUD handlers (src/server.js, src/unnamed/part_001) -/

/-- A stored quote record. Timestamps are modelled as Nat instants
(`Date.now()` milliseconds; `new Date().toISOString()` denotes the same
instant). Two representative payload columns stand in for the remaining
free-form fields. -/
structure Cotacao where
  id : String
  timestamp : Nat
  updatedAt : Option Nat
  negocioFechado : Bool
  transportadora : Option String
  valorFrete : Option Int
deriving DecidableEq, Repr

/-- A JSON request body: `none` means the key is absent from the body. -/
structure ReqBody where
  id : Option String
  timestamp : Option Nat
  updatedAt : Option Nat
  negocioFechado : Option Bool
  transportadora : Option String
  valorFrete : Option Int
deriving DecidableEq, Repr

/-- The record built by POST /api/cotacoes (src/server.js lines 319-324):
`{...req.body, id: Date.now().toString(), timestamp: new Date().toISOString(),
negocioFechado: req.body.negocioFechado || false}` — the server-assigned
`id`/`timestamp` come after the spread and so override any body fields,
while other body fields (including `updatedAt`) pass through. -/
def novaCotacao (b : ReqBody) (nowMs : Nat) : Cotacao :=
  { id := toString nowMs
  , timestamp := nowMs
  , updatedAt := b.updatedAt
  , negocioFechado := b.negocioFechado.getD false
  , transportadora := b.transportadora
  , valorFrete := b.valorFrete }

inductive PostResult where
  | created (r : Cotacao)
  | serverError
deriving DecidableEq, Repr

/-- POST /api/cotacoes (src/server.js lines 314-348): insert the built
record; a unique-key violation on `id` surfaces as a thrown error → 500. -/
def postHandler (store : List Cotacao) (b : ReqBody) (nowMs : Nat) :
    PostResult × List Cotacao :=
  if store.any (fun r => r.id == toString nowMs) then (.serverError, store)
  else (.created (novaCotacao b nowMs), store ++ [novaCotacao b nowMs])

/-- Column-wise effect of `update({...req.body, updatedAt: now})` on one
row: every column named in the body is overwritten (including `id` and
`timestamp` when the body carries them), `updatedAt` is set by the server
after the spread, and columns absent from the body keep their values. -/
def applyUpdate (r : Cotacao) (b : ReqBody) (now : Nat) : Cotacao :=
  { id := b.id.getD r.id
  , timestamp := b.timestamp.getD r.timestamp
  , updatedAt := some now
  , negocioFechado := b.negocioFechado.getD r.negocioFechado
  , transportadora := b.transportadora.or r.transportadora
  , valorFrete := b.valorFrete.or r.valorFrete }

inductive PutResult where
  | ok (r : Cotacao)
  | notFound
deriving DecidableEq, Repr

/-- PUT /api/cotacoes/:id (src/server.js lines 351-384): update all rows
whose (pre-update) `id` equals the route parameter, then `.select().single()`
returns the updated row when exactly one row was affected and otherwise
yields error PGRST116, which the handler maps to 404. -/
def putHandler (store : List Cotacao) (pid : String) (b : ReqBody) (now : Nat) :
    PutResult × List Cotacao :=
  let newStore := store.map (fun r => if r.id == pid then applyUpdate r b now else r)
  match (store.filter (fun r => r.id == pid)).map (fun r => applyUpdate r b now) with
  | [updated] => (.ok updated, newStore)
  | _ => (.notFound, newStore)

inductive DeleteResult where
  | noContent
  | notFound
deriving DecidableEq, Repr

/-- DELETE /api/cotacoes/:id (src/server.js lines 387-410): delete every
row matching the id and answer 204; the handler never inspects how many
rows were removed, so a missing id still answers 204. -/
def deleteHandler (store : List Cotacao) (pid : String) : DeleteResult × List Cotacao :=
  (.noContent, store.filter (fun r => r.id != pid))

/-- Remove the first element satisfying `p` (Mongo `findOneAndDelete`). -/
def removeFirstBy (p : Cotacao → Bool) : List Cotacao → List Cotacao
  | [] => []
  | r :: rs => if p r then rs else r :: removeFirstBy p rs

/-- DELETE /api/cotacoes/:id, MongoDB variant (src/unnamed/part_001 lines
191-205): `findOneAndDelete({id})` removes the first matching document and
returns it; `null` means no match, answered with 404. -/
def deleteHandlerMongo (store : List Cotacao) (pid : String) :
    DeleteResult × List Cotacao :=
  match store.find? (fun r => r.id == pid) with
  | none => (.notFound, store)
  | some _ => (.noContent, removeFirstBy (fun r => r.id == pid) store)

/-! ## Bootstrap-token middleware and sweep (src/server.js) -/

/-- One entry of the `tempTokens` map: `{createdAt: Date.now(), used: false}`. -/
structure TokenData where
  createdAt : Nat
  used : Bool
deriving DecidableEq, Repr

/-- The in-memory `tempTokens` registry (a JS `Map` keyed by token string). -/
abbrev TokenMap := String → Option TokenData

/-- `Map.set` (src/server.js line 76). -/
def setToken (m : TokenMap) (tok : String) (d : TokenData) : TokenMap :=
  fun s => if s = tok then some d else m s

/-- `tokenData.used = true` on the entry fetched by `Map.get`
(src/server.js line 123). -/
def markUsed (m : TokenMap) (tok : String) : TokenMap :=
  fun s => if s = tok then (m s).map (fun d => { d with used := true }) else m s

/-- The periodic sweep body (src/server.js lines 30-37): delete every entry
with `now - createdAt > 30000`. -/
def sweepTokens (m : TokenMap) (now : Nat) : TokenMap :=
  fun s =>
    match m s with
    | none => none
    | some d => if now - d.createdAt > 30000 then none else some d

/-- Mutable server state touched by the authentication flow. -/
structure ServerState where
  tempTokens : TokenMap

/-- The fields of an inbound request that the middleware reads.
`credential` is `req.query.token || req.headers['authorization']` with
falsy values collapsed to `none`. -/
structure AuthRequest where
  path : String
  originalUrl : String
  sessionAuthenticated : Bool
  credential : Option String

/-- JS `String.prototype.startsWith`, on the character list. -/
def strStartsWith (s p : String) : Bool := p.data.isPrefixOf s.data

/-- The public allow-list of the auth middleware (src/server.js lines 99-104). -/
def isPublicPath (p : String) : Bool :=
  strStartsWith p "/css" || strStartsWith p "/js" || strStartsWith p "/images" ||
  strStartsWith p "/favicon" || p == "/api/auth/generate-token" || p == "/health"

/-- `req.originalUrl.split('?')[0]` (src/server.js line 128). -/
def stripQuery (u : String) : String :=
  ⟨u.data.takeWhile (fun c => c ≠ '?')⟩

/-- `urlSemToken || '/'` (src/server.js line 129). -/
def redirectUrl (u : String) : String :=
  if stripQuery u = "" then "/" else stripQuery u

/-- What the middleware did with a request. -/
inductive AuthDecision where
  | next
  | redirect (url : String)
  | blocked
deriving DecidableEq, Repr

def isRedirect : AuthDecision → Bool
  | .redirect _ => true
  | _ => false

/-- The authentication middleware (src/server.js lines 97-191): public
paths pass; an authenticated session passes; a presented credential that
names an unused registry entry is marked used, a session is created, and
the request is redirected; everything else gets the 401 page. Note the
middleware never reads `createdAt`. -/
def authMiddleware (st : ServerState) (r : AuthRequest) :
    AuthDecision × ServerState :=
  if isPublicPath r.path then (.next, st)
  else if r.sessionAuthenticated then (.next, st)
  else
    match r.credential with
    | none => (.blocked, st)
    | some tok =>
      match st.tempTokens tok with
      | none => (.blocked, st)
      | some td =>
        if td.used then (.blocked, st)
        else (.redirect (redirectUrl r.originalUrl),
              { tempTokens := markUsed st.tempTokens tok })

/-- The events that mutate `tempTokens`: a request through the middleware,
a successful POST /api/auth/generate-token, and the 60-second sweep tick. -/
inductive ServerEvent where
  | handle (r : AuthRequest)
  | generateToken (tok : String) (now : Nat)
  | sweep (now : Nat)

def stepServer (st : ServerState) (e : ServerEvent) : ServerState :=
  match e with
  | .handle r => (authMiddleware st r).2
  | .generateToken tok now => { tempTokens := setToken st.tempTokens tok ⟨now, false⟩ }
  | .sweep now => { tempTokens := sweepTokens st.tempTokens now }

def runServer (st : ServerState) : List ServerEvent → ServerState
  | [] => st
  | e :: es => runServer (stepServer st e) es

/-- No event in the list regenerates the literal token string `t` (a fresh
`TEMP-${Date.now()}-${random}` string colliding with `t` would be a new
bootstrap token that happens to reuse the key). -/
def noRegenTok (t : String) : List ServerEvent → Bool
  | [] => true
  | ServerEvent.generateToken tok _ :: es => (tok != t) && noRegenTok t es
  | _ :: es => noRegenTok t es

/-! ## Startup configuration checks (src/middleware/auth.js, src/unnamed/part_001) -/

/-- `SECRET_KEY = process.env.JWT_SECRET || process.env.API_TOKEN`
(src/middleware/auth.js line 5). -/
def secretKeyOf (jwtSecret apiToken : Option String) : Option String :=
  match jwtSecret with
  | some s => some s
  | none => apiToken

/-- Result of loading src/middleware/auth.js: lines 7-9 log an error when
`SECRET_KEY` is falsy, and the block contains no `process.exit`, so module
load always continues (`fatal := false` on every input). -/
structure AuthModuleBoot where
  secretKey : Option String
  loggedMissingSecret : Bool
  fatal : Bool
deriving DecidableEq, Repr

def authModuleBoot (jwtSecret apiToken : Option String) : AuthModuleBoot :=
  { secretKey := secretKeyOf jwtSecret apiToken
  , loggedMissingSecret := (secretKeyOf jwtSecret apiToken).isNone
  , fatal := false }

/-- The only fatal startup check of the server that consumes
src/middleware/auth.js (src/unnamed/part_001 lines 22-27): `process.exit(1)`
exactly when `MONGODB_URI` is missing; no startup check involves the
signing secret. -/
def serverBootExits (mongoUri : Option String) : Bool := mongoUri.isNone

end CotacoesFrete

namespace CotacoesFrete

/-- Helper: does `pat` occur as a contiguous sublist of `l`? -/
def hasSub (pat : List Char) : List Char → Bool
  | [] => pat.isEmpty
  | c :: cs => pat.isPrefixOf (c :: cs) || hasSub pat cs

theorem removeFirstSub_of_not_hasSub (pat : List Char) (l : List Char)
    (h : hasSub pat l = false) : removeFirstSub pat l = l := by
  induction l with
  | nil => rfl
  | cons c cs ih =>
    simp only [hasSub, Bool.or_eq_false_iff] at h
    simp only [removeFirstSub, h.1, Bool.false_eq_true, if_false]
    rw [ih h.2]

theorem removeFirstSub_append (pat rest : List Char) (hne : pat ≠ []) :
    removeFirstSub pat (pat ++ rest) = rest := by
  cases pat with
  | nil => exact absurd rfl hne
  | cons p ps =>
    rw [List.cons_append]
    have hpre : (p :: ps).isPrefixOf (p :: (ps ++ rest)) = true := by
      rw [List.isPrefixOf_iff_prefix, ← List.cons_append]
      exact ⟨rest, rfl⟩
    have hstep : removeFirstSub (p :: ps) (p :: (ps ++ rest)) =
        if (p :: ps).isPrefixOf (p :: (ps ++ rest)) then
          (p :: (ps ++ rest)).drop (p :: ps).length
        else p :: removeFirstSub (p :: ps) (ps ++ rest) := rfl
    rw [hstep, hpre, if_pos rfl, ← List.cons_append]
    exact List.drop_left _ _

theorem extractBearer_prefixed (t : String) :
    extractBearer ("Bearer " ++ t) = t := by
  unfold extractBearer
  have hdata : ("Bearer " ++ t).data = "Bearer ".data ++ t.data := by
    simp [String.data_append]
  rw [hdata]
  have hpre : ("Bearer ".data).isPrefixOf ("Bearer ".data ++ t.data) = true := by
    rw [List.isPrefixOf_iff_prefix]
    exact ⟨t.data, rfl⟩
  simp only [hpre, if_true]
  have : ("Bearer ".data ++ t.data).drop 7 = t.data := by
    have h7 : ("Bearer ".data).length = 7 := by decide
    rw [← h7, List.drop_left]
  rw [this]

theorem extractBearer_bare (t : String)
    (h : ("Bearer ".data).isPrefixOf t.data = false) :
    extractBearer t = t := by
  unfold extractBearer
  simp [h]

end CotacoesFrete

namespace CotacoesFrete

/-- Claim C6: for a request whose bearer credential fails signed-token
verification, exact equality with the configured static fallback token
attaches the synthetic machine identity {username: api, name: API User,
isAdmin: true} and allows; otherwise the request is rejected with 403; and
when verification succeeds the identity embedded in the token is attached
and the request is allowed. -/
theorem auth_fallback_chain (jwtVerify : String → Option JwtPayload)
    (apiToken : Option String) (h : String)
    (hh : h ≠ "") (ht : extractBearer h ≠ "") :
    (∀ d, jwtVerify (extractBearer h) = some d →
        verificarAutenticacao jwtVerify apiToken (some h) =
          .allowed ⟨d.username, d.name, d.isAdmin⟩)
    ∧ (jwtVerify (extractBearer h) = none → some (extractBearer h) = apiToken →
        verificarAutenticacao jwtVerify apiToken (some h) =
          .allowed ⟨"api", "API User", true⟩)
    ∧ (jwtVerify (extractBearer h) = none → some (extractBearer h) ≠ apiToken →
        verificarAutenticacao jwtVerify apiToken (some h) =
          .rejected 403 "Token inválido ou expirado") := by
  have he : verificarAutenticacao jwtVerify apiToken (some h) =
      checkToken jwtVerify apiToken (extractBearer h) := by
    simp [verificarAutenticacao, hh, ht]
  refine ⟨?_, ?_, ?_⟩
  · intro d hd
    rw [he]; simp [checkToken, hd]
  · intro h1 h2
    rw [he]; simp [checkToken, h1, h2]
  · intro h1 h2
    rw [he]; simp [checkToken, h1, h2]

theorem auth_fallback_chain_witness :
    verificarAutenticacao
        (fun s => if s = "good.jwt" then some ⟨"u", "User U", false⟩ else none)
        (some "fixtoken") (some "Bearer fixtoken") =
      .allowed ⟨"api", "API User", true⟩ := by
  have h := auth_fallback_chain
      (fun s => if s = "good.jwt" then some ⟨"u", "User U", false⟩ else none)
      (some "fixtoken") "Bearer fixtoken" (by decide) (by decide)
  exact h.2.1 (by decide) (by decide)

end CotacoesFrete

namespace CotacoesFrete

/-- Claim C8: getCache is total and never raises: unconfigured backend or a
failed backend call degrade to an absent (null) result, and a cached value
is returned exactly when the backend is configured and the lookup succeeds
on a present, unexpired entry. -/
theorem getCache_degrades (redis : Option RedisGet) (key : String) :
    (∃ v, getCache redis key = .ok v)
    ∧ (redis = none → getCache redis key = .ok none)
    ∧ (∀ g e, redis = some g → g key = .error e → getCache redis key = .ok none)
    ∧ (∀ g v, redis = some g → g key = .ok v → getCache redis key = .ok v)
    ∧ (∀ v, getCache redis key = .ok (some v) →
        ∃ g, redis = some g ∧ g key = .ok (some v)) := by
  cases redis with
  | none =>
    refine ⟨⟨none, rfl⟩, fun _ => rfl, ?_, ?_, ?_⟩
    · intro g e hg _
      exact absurd hg (by simp)
    · intro g v hg _
      exact absurd hg (by simp)
    · intro v hv
      simp [getCache] at hv
  | some g =>
    cases hk : g key with
    | error e =>
      have hrun : getCache (some g) key = .ok none := by simp [getCache, hk]
      refine ⟨⟨none, hrun⟩, ?_, fun _ _ _ _ => hrun, ?_, ?_⟩
      · intro hn
        exact absurd hn (by simp)
      · intro g2 v hg2 hv
        injection hg2 with hgg
        subst hgg
        rw [hk] at hv
        exact absurd hv (by simp)
      · intro v hv
        rw [hrun] at hv
        injection hv with h2
        exact absurd h2 (by simp)
    | ok v0 =>
      have hrun : getCache (some g) key = .ok v0 := by simp [getCache, hk]
      refine ⟨⟨v0, hrun⟩, ?_, ?_, ?_, ?_⟩
      · intro hn
        exact absurd hn (by simp)
      · intro g2 e2 hg2 hv
        injection hg2 with hgg
        subst hgg
        rw [hk] at hv
        exact absurd hv (by simp)
      · intro g2 v hg2 hv
        injection hg2 with hgg
        subst hgg
        rw [hk] at hv
        injection hv with h2
        rw [hrun, h2]
      · intro v hv
        rw [hrun] at hv
        injection hv with h2
        exact ⟨g, rfl, by rw [hk, h2]⟩

theorem getCache_degrades_witness :
    getCache (some (fun _ => Except.error "timeout")) "cotacoes:all" = .ok none := by
  have h := getCache_degrades (some (fun _ => Except.error "timeout")) "cotacoes:all"
  exact h.2.2.1 (fun _ => Except.error "timeout") "timeout" rfl rfl

/-- Claim C9: clearCache ignores its pattern argument and deletes exactly
the aggregate key cotacoes:all, leaving every other key untouched; it
returns true when the backend delete succeeds and false when the backend
is unconfigured or the call fails. -/
theorem clearCache_aggregate_only (redis : Option RedisDelBackend)
    (pattern pattern2 : Option String) :
    (clearCache redis pattern = clearCache redis pattern2)
    ∧ (redis = none → clearCache redis pattern = (false, none))
    ∧ (∀ b, redis = some b → b.delFails = true →
        clearCache redis pattern = (false, some b))
    ∧ (∀ b, redis = some b → b.delFails = false →
        (clearCache redis pattern).1 = true
        ∧ (clearCache redis pattern).2 =
            some { b with keys := b.keys.filter (fun k => k != "cotacoes:all") }
        ∧ (∀ b2, (clearCache redis pattern).2 = some b2 →
            ¬ "cotacoes:all" ∈ b2.keys
            ∧ ∀ k, k ≠ "cotacoes:all" → (k ∈ b2.keys ↔ k ∈ b.keys))) := by
  cases redis with
  | none => exact ⟨rfl, fun _ => rfl, by simp, by simp⟩
  | some b =>
    cases hf : b.delFails with
    | true =>
      refine ⟨rfl, by simp, ?_, ?_⟩
      · intro b2 hb2 _
        injection hb2 with hbb
        subst hbb
        simp [clearCache, hf]
      · intro b2 hb2 hfalse
        injection hb2 with hbb
        subst hbb
        rw [hf] at hfalse
        exact absurd hfalse (by simp)
    | false =>
      refine ⟨rfl, by simp, ?_, ?_⟩
      · intro b2 hb2 htrue
        injection hb2 with hbb
        subst hbb
        rw [hf] at htrue
        exact absurd htrue (by simp)
      · intro b2 hb2 _
        injection hb2 with hbb
        subst hbb
        have hrun : clearCache (some b) pattern =
            (true, some { b with keys := b.keys.filter (fun k => k != "cotacoes:all") }) := by
          simp [clearCache, hf]
        refine ⟨by rw [hrun], by rw [hrun], ?_⟩
        intro b3 hb3
        rw [hrun] at hb3
        injection hb3 with hb3
        subst hb3
        constructor
        · simp [List.mem_filter]
        · intro k hk
          simp [List.mem_filter, hk]

theorem clearCache_aggregate_only_witness :
    (clearCache (some ⟨["cotacoes:all", "cotacoes:1"], false⟩) (some "cotacoes:*")).1 = true
    ∧ (clearCache (some ⟨["cotacoes:all", "cotacoes:1"], false⟩) (some "cotacoes:*")).2 =
        some ⟨["cotacoes:1"], false⟩ := by
  have h := clearCache_aggregate_only (some ⟨["cotacoes:all", "cotacoes:1"], false⟩)
      (some "cotacoes:*") none
  have h4 := h.2.2.2 ⟨["cotacoes:all", "cotacoes:1"], false⟩ rfl rfl
  refine ⟨h4.1, ?_⟩
  rw [h4.2.1]
  decide

end CotacoesFrete

namespace CotacoesFrete

/-- Claim C7: the stored record's identifier and creation timestamp are
server-assigned for every body (client-supplied id / timestamp fields do
not feed the stored values), negocioFechado defaults to false when absent,
and the handler answers 201 with exactly the stored record. -/
theorem post_server_assigns (store : List Cotacao) (b : ReqBody) (nowMs : Nat)
    (hfree : store.any (fun r => r.id == toString nowMs) = false) :
    postHandler store b nowMs =
      (.created (novaCotacao b nowMs), store ++ [novaCotacao b nowMs])
    ∧ (novaCotacao b nowMs).id = toString nowMs
    ∧ (novaCotacao b nowMs).timestamp = nowMs
    ∧ (novaCotacao b nowMs).negocioFechado = b.negocioFechado.getD false
    ∧ (∀ cid cts, novaCotacao { b with id := cid, timestamp := cts } nowMs =
        novaCotacao b nowMs) := by
  refine ⟨?_, rfl, rfl, rfl, fun _ _ => rfl⟩
  simp [postHandler, hfree]

theorem post_server_assigns_witness :
    postHandler []
        { id := some "999", timestamp := some 7, updatedAt := none,
          negocioFechado := none, transportadora := some "X", valorFrete := some 100 }
        1700000000000 =
      (.created { id := "1700000000000", timestamp := 1700000000000,
                  updatedAt := none, negocioFechado := false,
                  transportadora := some "X", valorFrete := some 100 },
       [{ id := "1700000000000", timestamp := 1700000000000,
          updatedAt := none, negocioFechado := false,
          transportadora := some "X", valorFrete := some 100 }]) := by
  have h := post_server_assigns []
      { id := some "999", timestamp := some 7, updatedAt := none,
        negocioFechado := none, transportadora := some "X", valorFrete := some 100 }
      1700000000000 (by decide)
  rw [h.1]
  rfl

/-- Claim C5 counterexample: with JWT_SECRET and API_TOKEN both unset the
auth module merely logs the missing secret and does not abort, the server
still boots whenever the persistence URI is present, and the part_003
middleware handles the missing secret per-request with a 500 response. -/
theorem missing_secret_nonfatal_cex :
    (authModuleBoot none none).fatal = false
    ∧ (authModuleBoot none none).loggedMissingSecret = true
    ∧ serverBootExits (some "mongodb+srv://user:pw@cluster/db") = false
    ∧ verificarAutenticacao3 none "/api/cotacoes" "GET" (some "Bearer abc") =
        .configError := by
  refine ⟨rfl, rfl, rfl, ?_⟩
  decide

/-- Claim C5 amended: absence of the shared signing secret is logged at
boot but is not fatal — only a missing persistence URI aborts startup —
and the missing-secret condition is handled per-request (part_003 answers
500 on every authenticated route when API_TOKEN is unset). -/
theorem missing_secret_behavior (jwtSecret apiToken mongoUri : Option String) :
    (authModuleBoot jwtSecret apiToken).fatal = false
    ∧ ((authModuleBoot jwtSecret apiToken).loggedMissingSecret = true ↔
        secretKeyOf jwtSecret apiToken = none)
    ∧ (serverBootExits mongoUri = true ↔ mongoUri = none)
    ∧ (∀ path method h, (path == "/health" || method == "HEAD") = false →
        h ≠ "" →
        verificarAutenticacao3 none path method (some h) = .configError) := by
  refine ⟨rfl, ?_, ?_, ?_⟩
  · simp [authModuleBoot, Option.isNone_iff_eq_none]
  · simp [serverBootExits, Option.isNone_iff_eq_none]
  · intro path method h hpub hh
    simp [verificarAutenticacao3, hpub, hh]

theorem missing_secret_behavior_witness :
    verificarAutenticacao3 none "/api/cotacoes" "POST" (some "tok") =
      .configError := by
  have h := missing_secret_behavior none none (some "mongodb+srv://c/db")
  exact h.2.2.2 "/api/cotacoes" "POST" "tok" (by decide) (by decide)

end CotacoesFrete

namespace CotacoesFrete

/-- Claim C3 counterexample: a body carrying id and timestamp fields
overwrites the stored identifier and creation timestamp through the
spread in the PUT handler. -/
theorem put_overwrites_cex :
    (putHandler
        [{ id := "1", timestamp := 100, updatedAt := none, negocioFechado := false,
           transportadora := some "X", valorFrete := some 100 }]
        "1"
        { id := some "2", timestamp := some 5, updatedAt := none,
          negocioFechado := none, transportadora := none, valorFrete := none }
        200).1 =
      PutResult.ok { id := "2", timestamp := 5, updatedAt := some 200,
                     negocioFechado := false, transportadora := some "X",
                     valorFrete := some 100 }
    ∧ ("2" : String) ≠ "1" ∧ (5 : Nat) ≠ 100 := by
  decide

/-- Claim C3 amended: when the body does not itself carry id or timestamp
fields, the PUT handler preserves the record's identifier and creation
timestamp and stamps updatedAt with the (strictly later) update time;
body-supplied id/timestamp fields overwrite the stored columns. -/
theorem put_preserves_without_body_overrides
    (store : List Cotacao) (pid : String) (b : ReqBody) (now : Nat) (r : Cotacao)
    (hid : b.id = none) (hts : b.timestamp = none)
    (huniq : store.filter (fun x => x.id == pid) = [r])
    (hlater : r.timestamp < now) :
    (putHandler store pid b now).1 = .ok (applyUpdate r b now)
    ∧ (applyUpdate r b now).id = r.id
    ∧ (applyUpdate r b now).timestamp = r.timestamp
    ∧ (applyUpdate r b now).updatedAt = some now
    ∧ (applyUpdate r b now).timestamp < now := by
  refine ⟨?_, ?_, ?_, rfl, ?_⟩
  · simp [putHandler, huniq]
  · simp [applyUpdate, hid]
  · simp [applyUpdate, hts]
  · simpa [applyUpdate, hts] using hlater

theorem put_preserves_without_body_overrides_witness :
    (putHandler
        [{ id := "1", timestamp := 100, updatedAt := none, negocioFechado := false,
           transportadora := some "X", valorFrete := some 100 }]
        "1"
        { id := none, timestamp := none, updatedAt := none,
          negocioFechado := some true, transportadora := none, valorFrete := some 250 }
        200).1 =
      PutResult.ok { id := "1", timestamp := 100, updatedAt := some 200,
                     negocioFechado := true, transportadora := some "X",
                     valorFrete := some 250 } := by
  have h := put_preserves_without_body_overrides
      [{ id := "1", timestamp := 100, updatedAt := none, negocioFechado := false,
         transportadora := some "X", valorFrete := some 100 }]
      "1"
      { id := none, timestamp := none, updatedAt := none,
        negocioFechado := some true, transportadora := none, valorFrete := some 250 }
      200
      { id := "1", timestamp := 100, updatedAt := none, negocioFechado := false,
        transportadora := some "X", valorFrete := some 100 }
      rfl rfl (by decide) (by decide)
  rw [h.1]
  rfl

/-- If no element satisfies `p` (find? is none), filtering out `p` keeps
the list intact. -/
theorem filter_not_of_find?_none (p : Cotacao → Bool) (l : List Cotacao)
    (h : l.find? p = none) : l.filter (fun x => !p x) = l := by
  rw [List.filter_eq_self]
  intro a ha
  have := List.find?_eq_none.mp h a ha
  simpa using this

/-- A singleton filter pins down find?. -/
theorem find?_of_filter_singleton (p : Cotacao → Bool) (l : List Cotacao)
    (r : Cotacao) (h : l.filter p = [r]) : l.find? p = some r := by
  induction l with
  | nil => simp at h
  | cons x xs ih =>
    cases hx : p x with
    | true =>
      rw [List.filter_cons_of_pos hx] at h
      injection h with h1 h2
      subst h1
      simp [List.find?_cons, hx]
    | false =>
      rw [List.filter_cons_of_neg (by simp [hx])] at h
      simp [List.find?_cons, hx, ih h]

/-- Removing the first `p`-element of a list that has one shortens it by
exactly one. -/
theorem removeFirstBy_length (p : Cotacao → Bool) (l : List Cotacao)
    (r : Cotacao) (h : l.find? p = some r) :
    (removeFirstBy p l).length + 1 = l.length := by
  induction l with
  | nil => simp at h
  | cons x xs ih =>
    cases hx : p x with
    | true => simp [removeFirstBy, hx]
    | false =>
      rw [List.find?_cons, hx] at h
      simp only [removeFirstBy, hx, Bool.false_eq_true, if_false, List.length_cons]
      rw [ih h]

/-- With a unique match, filtering out the matches equals removing the
first match. -/
theorem filter_not_eq_removeFirstBy (p : Cotacao → Bool) (l : List Cotacao)
    (r : Cotacao) (h : l.filter p = [r]) :
    l.filter (fun x => !p x) = removeFirstBy p l := by
  induction l with
  | nil => simp at h
  | cons x xs ih =>
    cases hx : p x with
    | true =>
      rw [List.filter_cons_of_pos hx] at h
      injection h with h1 h2
      have hxs : xs.filter (fun x => !p x) = xs := by
        rw [List.filter_eq_self]
        intro a ha
        have : ¬ p a = true := by
          intro hpa
          have : a ∈ xs.filter p := List.mem_filter.mpr ⟨ha, hpa⟩
          rw [h2] at this
          simp at this
        simp [this]
      simp [removeFirstBy, hx, List.filter_cons, hxs]
    | false =>
      rw [List.filter_cons_of_neg (by simp [hx])] at h
      simp [removeFirstBy, hx, List.filter_cons, ih h]

/-- Claim C4 counterexample: deleting a nonexistent identifier through the
Supabase handler (src/server.js) answers 204, not 404 (the collection is
left unchanged). -/
theorem delete_missing_cex :
    (deleteHandler
        [{ id := "1", timestamp := 100, updatedAt := none, negocioFechado := false,
           transportadora := none, valorFrete := none }] "2").1 ≠
      DeleteResult.notFound
    ∧ (deleteHandler
        [{ id := "1", timestamp := 100, updatedAt := none, negocioFechado := false,
           transportadora := none, valorFrete := none }] "2") =
      (DeleteResult.noContent,
       [{ id := "1", timestamp := 100, updatedAt := none, negocioFechado := false,
          transportadora := none, valorFrete := none }]) := by
  decide

/-- Claim C4 amended: for a nonexistent identifier the Supabase handler
(src/server.js) answers 204 with the collection unchanged while only the
MongoDB variant answers 404; for an identifier with exactly one match both
variants answer 204 and remove exactly that one record. -/
theorem delete_variants (store : List Cotacao) (pid : String) :
    (store.find? (fun r => r.id == pid) = none →
        deleteHandler store pid = (.noContent, store)
        ∧ deleteHandlerMongo store pid = (.notFound, store))
    ∧ (∀ r, store.filter (fun x => x.id == pid) = [r] →
        deleteHandlerMongo store pid =
          (.noContent, removeFirstBy (fun x => x.id == pid) store)
        ∧ deleteHandler store pid =
          (.noContent, removeFirstBy (fun x => x.id == pid) store)
        ∧ (removeFirstBy (fun x => x.id == pid) store).length + 1 = store.length) := by
  constructor
  · intro hnone
    constructor
    · have : store.filter (fun r => !(r.id == pid)) = store :=
        filter_not_of_find?_none _ store hnone
      simp only [deleteHandler]
      rw [show (fun r : Cotacao => r.id != pid) = (fun r : Cotacao => !(r.id == pid))
            from rfl, this]
    · simp [deleteHandlerMongo, hnone]
  · intro r hr
    have hfind := find?_of_filter_singleton _ store r hr
    refine ⟨by simp [deleteHandlerMongo, hfind], ?_, removeFirstBy_length _ store r hfind⟩
    have : store.filter (fun x => !(x.id == pid)) =
        removeFirstBy (fun x => x.id == pid) store :=
      filter_not_eq_removeFirstBy _ store r hr
    simp only [deleteHandler]
    rw [show (fun r : Cotacao => r.id != pid) = (fun r : Cotacao => !(r.id == pid))
          from rfl, this]

theorem delete_variants_witness :
    deleteHandler
        [{ id := "1", timestamp := 100, updatedAt := none, negocioFechado := false,
           transportadora := none, valorFrete := none },
         { id := "2", timestamp := 200, updatedAt := none, negocioFechado := true,
           transportadora := none, valorFrete := none }] "1" =
      (DeleteResult.noContent,
       [{ id := "2", timestamp := 200, updatedAt := none, negocioFechado := true,
          transportadora := none, valorFrete := none }])
    ∧ deleteHandlerMongo
        [{ id := "1", timestamp := 100, updatedAt := none, negocioFechado := false,
           transportadora := none, valorFrete := none },
         { id := "2", timestamp := 200, updatedAt := none, negocioFechado := true,
           transportadora := none, valorFrete := none }] "3" =
      (DeleteResult.notFound,
       [{ id := "1", timestamp := 100, updatedAt := none, negocioFechado := false,
          transportadora := none, valorFrete := none },
        { id := "2", timestamp := 200, updatedAt := none, negocioFechado := true,
          transportadora := none, valorFrete := none }]) := by
  constructor
  · have h := (delete_variants
        [{ id := "1", timestamp := 100, updatedAt := none, negocioFechado := false,
           transportadora := none, valorFrete := none },
         { id := "2", timestamp := 200, updatedAt := none, negocioFechado := true,
           transportadora := none, valorFrete := none }] "1").2
        { id := "1", timestamp := 100, updatedAt := none, negocioFechado := false,
          transportadora := none, valorFrete := none } (by decide)
    rw [h.2.1]
    rfl
  · have h := (delete_variants
        [{ id := "1", timestamp := 100, updatedAt := none, negocioFechado := false,
           transportadora := none, valorFrete := none },
         { id := "2", timestamp := 200, updatedAt := none, negocioFechado := true,
           transportadora := none, valorFrete := none }] "3").1 (by decide)
    rw [h.2]

end CotacoesFrete

namespace CotacoesFrete

/-- Claim C10 counterexample: for a token that itself starts with the
prefix, the two presentations are parsed differently — with a static
fallback token of "Bearer x" and failing signed verification, the prefixed
presentation is allowed while the bare presentation gets 403. -/
theorem bearer_prefix_equiv_cex :
    (verificarAutenticacao (fun _ => none) (some "Bearer x")
        (some ("Bearer " ++ "Bearer x"))).outcome ≠
      (verificarAutenticacao (fun _ => none) (some "Bearer x")
        (some "Bearer x")).outcome := by
  decide

/-- Claim C10 amended: presenting the header value 'Bearer ' + t and the
bare value t yield the same authentication outcome whenever the nonempty
token t does not itself start with (src/middleware/auth.js) — respectively
contain (src/unnamed/part_003) — the substring 'Bearer '. -/
theorem bearer_prefix_equiv
    (jwtVerify : String → Option JwtPayload) (apiToken apiToken3 : Option String)
    (path method : String) (t : String)
    (h3 : t ≠ "") :
    (("Bearer ".data).isPrefixOf t.data = false →
      (verificarAutenticacao jwtVerify apiToken (some ("Bearer " ++ t))).outcome =
      (verificarAutenticacao jwtVerify apiToken (some t)).outcome)
    ∧ (hasSub ("Bearer ".data) t.data = false →
      (verificarAutenticacao3 apiToken3 path method (some ("Bearer " ++ t))).outcome =
      (verificarAutenticacao3 apiToken3 path method (some t)).outcome) := by
  have hBt : ("Bearer " ++ t) ≠ "" := by
    intro he
    have hd := congrArg String.data he
    simp [String.data_append] at hd
  have eB : extractBearer ("Bearer " ++ t) = t := extractBearer_prefixed t
  constructor
  · intro h1
    have e2 : extractBearer t = t := extractBearer_bare t h1
    have ha : verificarAutenticacao jwtVerify apiToken (some ("Bearer " ++ t)) =
        checkToken jwtVerify apiToken t := by
      simp [verificarAutenticacao, hBt, eB, h3]
    have hb : verificarAutenticacao jwtVerify apiToken (some t) =
        checkToken jwtVerify apiToken t := by
      simp [verificarAutenticacao, e2, h3]
    rw [ha, hb]
  · intro h2
    have rB : replaceBearer ("Bearer " ++ t) = t := by
      unfold replaceBearer
      rw [show ("Bearer " ++ t).data = "Bearer ".data ++ t.data by
            simp [String.data_append],
          removeFirstSub_append _ _ (by decide)]
    have r2 : replaceBearer t = t := by
      unfold replaceBearer
      rw [removeFirstSub_of_not_hasSub _ _ h2]
    cases hp : (path == "/health" || method == "HEAD") with
    | true => simp [verificarAutenticacao3, hp]
    | false =>
      cases apiToken3 with
      | none =>
        have hx : verificarAutenticacao3 none path method (some ("Bearer " ++ t)) =
            .configError := by
          simp [verificarAutenticacao3, hp, hBt]
        have hy : verificarAutenticacao3 none path method (some t) =
            .configError := by
          simp [verificarAutenticacao3, hp, h3]
        rw [hx, hy]
      | some secret =>
        have hx : verificarAutenticacao3 (some secret) path method
            (some ("Bearer " ++ t)) =
            (if t = secret then Auth3Result.next
             else Auth3Result.unauthorized "Token inválido") := by
          simp [verificarAutenticacao3, hp, hBt, rB]
        have hy : verificarAutenticacao3 (some secret) path method (some t) =
            (if t = secret then Auth3Result.next
             else Auth3Result.unauthorized "Token inválido") := by
          simp [verificarAutenticacao3, hp, h3, r2]
        rw [hx, hy]

theorem bearer_prefix_equiv_witness :
    (verificarAutenticacao (fun _ => none) (some "tok123")
        (some ("Bearer " ++ "tok123"))).outcome =
      (verificarAutenticacao (fun _ => none) (some "tok123")
        (some "tok123")).outcome := by
  have h := bearer_prefix_equiv (fun _ => none) (some "tok123") (some "tok123")
      "/api/cotacoes" "GET" "tok123" (by decide)
  exact h.1 (by decide)

end CotacoesFrete

namespace CotacoesFrete

/-- A redeeming request leaves the redeemed token marked used in the
registry. -/
theorem redeem_marks_used (st : ServerState) (r : AuthRequest) (t u : String)
    (hcred : r.credential = some t)
    (hred : (authMiddleware st r).1 = .redirect u) :
    ∀ d, (authMiddleware st r).2.tempTokens t = some d → d.used = true := by
  intro d hd
  cases hpub : isPublicPath r.path with
  | true =>
    rw [show authMiddleware st r = (.next, st) by simp [authMiddleware, hpub]] at hred
    simp at hred
  | false =>
    cases hsess : r.sessionAuthenticated with
    | true =>
      rw [show authMiddleware st r = (.next, st) by
        simp [authMiddleware, hpub, hsess]] at hred
      simp at hred
    | false =>
      cases hlook : st.tempTokens t with
      | none =>
        rw [show authMiddleware st r = (.blocked, st) by
          simp [authMiddleware, hpub, hsess, hcred, hlook]] at hred
        simp at hred
      | some td =>
        cases htd : td.used with
        | true =>
          rw [show authMiddleware st r = (.blocked, st) by
            simp [authMiddleware, hpub, hsess, hcred, hlook, htd]] at hred
          simp at hred
        | false =>
          have hm : authMiddleware st r =
              (.redirect (redirectUrl r.originalUrl),
               { tempTokens := markUsed st.tempTokens t }) := by
            simp [authMiddleware, hpub, hsess, hcred, hlook, htd]
          rw [hm] at hd
          have hval : markUsed st.tempTokens t t = some { td with used := true } := by
            simp [markUsed, hlook]
          rw [show ({ tempTokens := markUsed st.tempTokens t } :
              ServerState).tempTokens t = markUsed st.tempTokens t t from rfl,
            hval] at hd
          injection hd with hdd
          rw [← hdd]

/-- Marking any token used preserves "t's entry, if present, is used". -/
theorem consumed_markUsed (m : TokenMap) (tok t : String)
    (h : ∀ d, m t = some d → d.used = true) :
    ∀ d, markUsed m tok t = some d → d.used = true := by
  intro d hd
  by_cases he : t = tok
  · simp only [markUsed, if_pos he] at hd
    cases hm : m t with
    | none => rw [hm] at hd; simp at hd
    | some d0 =>
      rw [hm] at hd
      simp only [Option.map_some'] at hd
      injection hd with hdd
      rw [← hdd]
  · simp only [markUsed, if_neg he] at hd
    exact h d hd

/-- The sweep preserves "t's entry, if present, is used". -/
theorem consumed_sweep (m : TokenMap) (now : Nat) (t : String)
    (h : ∀ d, m t = some d → d.used = true) :
    ∀ d, sweepTokens m now t = some d → d.used = true := by
  intro d hd
  cases hm : m t with
  | none => simp [sweepTokens, hm] at hd
  | some d0 =>
    simp only [sweepTokens, hm] at hd
    by_cases hx : now - d0.createdAt > 30000
    · rw [if_pos hx] at hd
      simp at hd
    · rw [if_neg hx] at hd
      injection hd with hdd
      rw [← hdd]
      exact h d0 hm


/-- The middleware either leaves the registry unchanged or marks the
presented credential used. -/
theorem authMiddleware_snd_cases (st : ServerState) (r : AuthRequest) :
    (authMiddleware st r).2 = st ∨
    ∃ tok, r.credential = some tok ∧
      (authMiddleware st r).2 = { tempTokens := markUsed st.tempTokens tok } := by
  cases hpub : isPublicPath r.path with
  | true => exact Or.inl (by simp [authMiddleware, hpub])
  | false =>
    cases hsess : r.sessionAuthenticated with
    | true => exact Or.inl (by simp [authMiddleware, hpub, hsess])
    | false =>
      cases hcred : r.credential with
      | none => exact Or.inl (by simp [authMiddleware, hpub, hsess, hcred])
      | some tok =>
        cases hlook : st.tempTokens tok with
        | none => exact Or.inl (by simp [authMiddleware, hpub, hsess, hcred, hlook])
        | some td =>
          cases htd : td.used with
          | true => exact Or.inl (by simp [authMiddleware, hpub, hsess, hcred, hlook, htd])
          | false =>
            exact Or.inr ⟨tok, rfl,
              by simp [authMiddleware, hpub, hsess, hcred, hlook, htd]⟩

/-- Every event that does not regenerate the token string t preserves
"t's entry, if present, is used". -/
theorem consumed_step (st : ServerState) (t : String) (e : ServerEvent)
    (h : ∀ d, st.tempTokens t = some d → d.used = true)
    (hf : ∀ tok now, e = ServerEvent.generateToken tok now → tok ≠ t) :
    ∀ d, (stepServer st e).tempTokens t = some d → d.used = true := by
  cases e with
  | handle r =>
    intro d hd
    simp only [stepServer] at hd
    rcases authMiddleware_snd_cases st r with hcase | ⟨tok, _, hcase⟩
    · rw [hcase] at hd
      exact h d hd
    · rw [hcase] at hd
      exact consumed_markUsed st.tempTokens tok t h d hd
  | generateToken tok now =>
    intro d hd
    have hne : tok ≠ t := hf tok now rfl
    simp only [stepServer, setToken] at hd
    rw [if_neg (fun hh => hne hh.symm)] at hd
    exact h d hd
  | sweep now =>
    intro d hd
    simp only [stepServer] at hd
    exact consumed_sweep st.tempTokens now t h d hd

/-- Running any regeneration-free event sequence preserves "t's entry, if
present, is used". -/
theorem consumed_run (t : String) (es : List ServerEvent) :
    ∀ st : ServerState, noRegenTok t es = true →
    (∀ d, st.tempTokens t = some d → d.used = true) →
    ∀ d, (runServer st es).tempTokens t = some d → d.used = true := by
  induction es with
  | nil =>
    intro st _ h
    exact h
  | cons e es ih =>
    intro st hfresh h
    have htail : noRegenTok t es = true := by
      cases e with
      | generateToken tok now =>
        simp only [noRegenTok, Bool.and_eq_true] at hfresh
        exact hfresh.2
      | handle r => simpa [noRegenTok] using hfresh
      | sweep now => simpa [noRegenTok] using hfresh
    have hstep : ∀ d, (stepServer st e).tempTokens t = some d → d.used = true := by
      apply consumed_step st t e h
      intro tok now heq
      subst heq
      simp only [noRegenTok, Bool.and_eq_true] at hfresh
      exact bne_iff_ne.mp hfresh.1
    intro d hd
    simp only [runServer] at hd
    exact ih (stepServer st e) htail hstep d hd

/-- A request whose credential names a consumed (or absent) token is
answered with the 401 page. -/
theorem blocked_of_consumed (st : ServerState) (r : AuthRequest) (t : String)
    (hcons : ∀ d, st.tempTokens t = some d → d.used = true)
    (hcred : r.credential = some t)
    (hpub : isPublicPath r.path = false)
    (hsess : r.sessionAuthenticated = false) :
    (authMiddleware st r).1 = .blocked := by
  cases hlook : st.tempTokens t with
  | none => simp [authMiddleware, hpub, hsess, hcred, hlook]
  | some td =>
    have := hcons td hlook
    simp [authMiddleware, hpub, hsess, hcred, hlook, this]

/-- Claim C1: once a request redeems a bootstrap token (creating a session
and marking it used), every later sessionless request presenting the same
token — across any regeneration-free sequence of requests, token
generations and sweeps, and regardless of elapsed time — is answered with
the 401 page and never redeems the token again. -/
theorem bootstrap_token_single_use
    (st : ServerState) (r : AuthRequest) (t u : String)
    (hcred : r.credential = some t)
    (hred : (authMiddleware st r).1 = .redirect u)
    (es : List ServerEvent) (hfresh : noRegenTok t es = true)
    (r2 : AuthRequest) (h2cred : r2.credential = some t)
    (h2pub : isPublicPath r2.path = false)
    (h2sess : r2.sessionAuthenticated = false) :
    (authMiddleware (runServer (authMiddleware st r).2 es) r2).1 = .blocked ∧
    ∀ u2, (authMiddleware (runServer (authMiddleware st r).2 es) r2).1 ≠
      .redirect u2 := by
  have h0 := redeem_marks_used st r t u hcred hred
  have h1 := consumed_run t es (authMiddleware st r).2 hfresh h0
  have h2 := blocked_of_consumed _ r2 t h1 h2cred h2pub h2sess
  refine ⟨h2, fun u2 => ?_⟩
  rw [h2]
  simp

theorem bootstrap_token_single_use_witness :
    (authMiddleware (runServer (authMiddleware
        { tempTokens := setToken (fun _ => none) "TEMP-1-abc" ⟨0, false⟩ }
        { path := "/api/cotacoes", originalUrl := "/api/cotacoes?token=TEMP-1-abc",
          sessionAuthenticated := false, credential := some "TEMP-1-abc" }).2
        [ServerEvent.sweep 61000])
      { path := "/api/cotacoes", originalUrl := "/api/cotacoes?token=TEMP-1-abc",
        sessionAuthenticated := false, credential := some "TEMP-1-abc" }).1 =
      AuthDecision.blocked := by
  exact (bootstrap_token_single_use
      { tempTokens := setToken (fun _ => none) "TEMP-1-abc" ⟨0, false⟩ }
      { path := "/api/cotacoes", originalUrl := "/api/cotacoes?token=TEMP-1-abc",
        sessionAuthenticated := false, credential := some "TEMP-1-abc" }
      "TEMP-1-abc" "/api/cotacoes" rfl (by decide)
      [ServerEvent.sweep 61000] (by decide)
      { path := "/api/cotacoes", originalUrl := "/api/cotacoes?token=TEMP-1-abc",
        sessionAuthenticated := false, credential := some "TEMP-1-abc" }
      rfl (by decide) rfl).1

/-- Claim C2: the middleware consults only presence and the used flag —
never createdAt — so a never-used token presented 31 s after issuance is
still accepted (and a session created) whenever the 60-second sweep has
not yet purged it, although running the sweep body at that instant would
purge the token and block the request. -/
theorem token_accepted_after_window :
    (authMiddleware
        { tempTokens := setToken (fun _ => none) "TEMP-0-xyz" ⟨0, false⟩ }
        { path := "/api/cotacoes", originalUrl := "/api/cotacoes?token=TEMP-0-xyz",
          sessionAuthenticated := false, credential := some "TEMP-0-xyz" }).1 =
      AuthDecision.redirect "/api/cotacoes"
    ∧ (authMiddleware
        { tempTokens :=
            sweepTokens (setToken (fun _ => none) "TEMP-0-xyz" ⟨0, false⟩) 31000 }
        { path := "/api/cotacoes", originalUrl := "/api/cotacoes?token=TEMP-0-xyz",
          sessionAuthenticated := false, credential := some "TEMP-0-xyz" }).1 =
      AuthDecision.blocked := by
  exact ⟨by decide, by decide⟩

end CotacoesFrete
